import Mathlib

/-!
Verification development for the real-time transaction-synchronization client
(frontend of the `lglr` repository).

The definitions below are a shallow embedding of the TypeScript source:

* `Transaction`, `WSMessage`, `NewTransaction` — `src/frontend/src/types.ts`.
  Status and kind fields are embedded as `String`: at runtime the TypeScript
  annotations are erased and the handlers perform no validation of the values,
  so the faithful runtime model is plain strings.
* `handleWSMessage` — the store reconciliation handler in
  `src/frontend/src/hooks/useTransactions` (App.tsx bundle, lines 230-240).
* `wsOnMessage` — the `ws.onmessage` frame classifier in
  `src/frontend/src/hooks/useWebSocket.ts` (lines 61-76).
* `request` — the API client error surface (`src/unnamed/part_000`, lines 9-27).
* `createTransaction` — the idempotency-key generation path
  (`src/unnamed/part_000`, lines 37-48); `crypto.randomUUID` is modelled as
  drawing the next value from an injective entropy stream.
* `dispatchCombined` — the combined subscriber dispatch `onWSMessage` in
  `App.tsx` (lines 27-30).

JavaScript truthiness on optional string fields (`undefined` and `""` are
falsy) is modelled explicitly by `jsTruthy` / `jsOrElse`.
-/

/-- Domain record, from `types.ts` (`Transaction`). -/
structure Transaction where
  id : String
  user_id : String
  monto : String
  tipo : String
  status : String
  created_at : String
  updated_at : String
  deriving Repr, DecidableEq

/-- Creation payload, from `types.ts` (`NewTransaction`). -/
structure NewTransaction where
  user_id : String
  monto : String
  tipo : String
  deriving Repr, DecidableEq

/-- Inbound push frame after JSON decoding, from `types.ts` (`WSMessage`).
The `type` field carries the keepalive tag when present. -/
structure WSMessage where
  event : String
  transaction_id : Option String := none
  old_status : Option String := none
  new_status : Option String := none
  timestamp : Option String := none
  type : Option String := none
  deriving Repr, DecidableEq

/-- JavaScript truthiness of an optional string field: `undefined` and the
empty string are falsy, every other string is truthy. -/
def jsTruthy : Option String → Bool
  | none => false
  | some s => s != ""

/-- JavaScript `a || b` on an optional string `a` with string fallback `b`. -/
def jsOrElse : Option String → String → String
  | none, b => b
  | some s, b => if s != "" then s else b

/-- JavaScript strict equality `s === o` between a string and a possibly
absent string (`s === undefined` is false). -/
def optStrEq : Option String → String → Bool
  | none, _ => false
  | some s, t => s == t

/-- Per-element update performed inside the store handler:
`tx.id === message.transaction_id && message.new_status ?
\x7b ...tx, status: message.new_status,
updated_at: message.timestamp || tx.updated_at \x7d : tx`
(the truthiness test on `message.new_status` is unpacked into the match). -/
def updateTx (m : WSMessage) (tx : Transaction) : Transaction :=
  match m.new_status with
  | some ns =>
      if optStrEq m.transaction_id tx.id && ns != "" then
        { tx with status := ns, updated_at := jsOrElse m.timestamp tx.updated_at }
      else tx
  | none => tx

/-- Store reconciliation handler `handleWSMessage` from `useTransactions`:
`if (message.event === 'transaction.status_changed' && message.transaction_id)
setTransactions(prev => prev.map(tx => ...))`. -/
def handleWSMessage (m : WSMessage) (txs : List Transaction) : List Transaction :=
  if m.event == "transaction.status_changed" && jsTruthy m.transaction_id then
    txs.map (updateTx m)
  else txs

/-- Folding a sequence of push frames through the store handler in receipt
order. -/
def applyEvents (evts : List WSMessage) (txs : List Transaction) : List Transaction :=
  evts.foldl (fun s m => handleWSMessage m s) txs

/-- Store create path from `useTransactions.create`:
`setTransactions(prev => [tx, ...prev])`. -/
def createStore (tx : Transaction) (prev : List Transaction) : List Transaction :=
  tx :: prev

/-- Boolean form of "this frame is a status-change event addressed to `id`
and carries a (truthy) new status". -/
def isStatusChangedFor (id : String) (m : WSMessage) : Bool :=
  m.event == "transaction.status_changed" && m.transaction_id == some id &&
    (match m.new_status with
     | some ns => ns != ""
     | none => false)

/-- New status carried by the last frame of a sequence (empty string when the
sequence is empty or its last frame carries none). -/
def lastNewStatus (evts : List WSMessage) : String :=
  (evts.getLast?.bind (fun m => m.new_status)).getD ""

/-!
The WebSocket frame classifier (`useWebSocket.ts`, `ws.onmessage`).

The client-side observable state tracks `lastMessage`, the subscriber state,
the list of frames actually delivered to `onMessage`, the `console.warn`
diagnostics, and whether the connection is open (the handler never closes
it). `delivered` records each invocation of `onMessageRef.current`.
-/

/-- Observable state of the WebSocket client around `ws.onmessage`. -/
structure WSClientState (σ : Type) where
  lastMessage : Option WSMessage
  subscriberState : σ
  delivered : List WSMessage
  warnings : List String
  connectionOpen : Bool
  deriving Repr

/-- Frame classifier from `useWebSocket.ts` lines 61-76. `parse` stands for
`JSON.parse` (returning `none` when parsing throws); `subscriber` is the
registered `onMessage` callback acting on its own state. -/
def wsOnMessage {σ : Type} (parse : String → Option WSMessage)
    (subscriber : WSMessage → σ → σ) (raw : String)
    (st : WSClientState σ) : WSClientState σ :=
  if raw == "pong" then st
  else
    match parse raw with
    | some m =>
        if m.type == some "keepalive" then st
        else
          { st with lastMessage := some m,
                    subscriberState := subscriber m st.subscriberState,
                    delivered := st.delivered ++ [m] }
    | none =>
        { st with warnings := st.warnings ++ ["[WS] Failed to parse message: " ++ raw] }

/-!
The API client (`src/unnamed/part_000`).
-/

/-- HTTP response as observed by the client `request` helper. -/
structure HttpResponse where
  ok : Bool
  status : Nat
  body : String
  deriving Repr, DecidableEq

/-- Error surface of the `request` helper: on a non-success response it
throws `new Error(error || "HTTP " + response.status)` where `error` is the
response text; on success it resolves with the payload (`response.json()`,
whose decoded value we represent by the body text). -/
def request (resp : HttpResponse) : Except String String :=
  if !resp.ok then
    Except.error (if resp.body != "" then resp.body else "HTTP " ++ toString resp.status)
  else
    Except.ok resp.body

/-- Entropy source behind `crypto.randomUUID`: an injective stream of fresh
values, advanced on every draw. -/
structure UuidGen where
  counter : Nat
  deriving Repr, DecidableEq

/-- Draw the next UUID from the entropy stream (models `crypto.randomUUID()`:
each call yields a fresh, distinct value). -/
def randomUUID (g : UuidGen) : String × UuidGen :=
  ("uuid-" ++ toString g.counter, { counter := g.counter + 1 })

/-- Outbound API call with its idempotency header. -/
structure ApiCall where
  path : String
  method : String
  body : NewTransaction
  idempotencyKey : Option String
  deriving Repr, DecidableEq

/-- Embedding of `createTransaction` (`src/unnamed/part_000` lines 37-48):
`const idempotencyKey = crypto.randomUUID();` is executed on every
invocation, and the request carries that key in the Idempotency-Key header.
The entropy stream is threaded explicitly. -/
def createTransaction (data : NewTransaction) (g : UuidGen) : ApiCall × UuidGen :=
  let (idempotencyKey, g2) := randomUUID g
  ({ path := "/transactions/create", method := "POST", body := data,
     idempotencyKey := some idempotencyKey }, g2)

/-!
Combined subscriber dispatch (`App.tsx` lines 27-30):
`const onWSMessage = (message) => \x7b handleWSMessage(message);
toastHandler(message); \x7d`. A subscriber is modelled as returning its new
state together with a flag saying whether it threw; a throw in the first
subscriber skips the second (there is no per-subscriber try/catch), while the
effects the first subscriber performed before throwing are kept.
-/

/-- Sequential two-subscriber dispatch with no isolation boundary, as written
in `onWSMessage`. -/
def dispatchCombined {σ : Type} (sub1 sub2 : WSMessage → σ → σ × Bool)
    (m : WSMessage) (s : σ) : σ × Bool :=
  let r1 := sub1 m s
  if r1.2 then (r1.1, true)
  else sub2 m r1.1

/-- Always-throwing first subscriber used to evaluate the dispatcher. -/
def throwingSub : WSMessage → Nat → Nat × Bool :=
  fun _ s => (s, true)

/-- Second subscriber counting its deliveries (the toast handler stand-in). -/
def countingSub : WSMessage → Nat → Nat × Bool :=
  fun _ s => (s + 1, false)

/-- Concrete creation payload used when evaluating the retry behaviour. -/
def dRetry : NewTransaction :=
  { user_id := "u1", monto := "100.50", tipo := "ingreso" }

/-- Concrete pending transaction X used in concrete evaluations. -/
def txX : Transaction :=
  { id := "X", user_id := "u1", monto := "100.50", tipo := "ingreso",
    status := "pending", created_at := "t0", updated_at := "t0" }

/-- Concrete second transaction Y used in concrete evaluations. -/
def txY : Transaction :=
  { id := "Y", user_id := "u2", monto := "7", tipo := "egreso",
    status := "pendiente", created_at := "t1", updated_at := "t1" }

/-- Status-change frame for transaction X exactly as written in the spec
scenario, with the bare tag `status_changed` in the `event` field. -/
def frameBareTag : WSMessage :=
  { event := "status_changed", transaction_id := some "X",
    old_status := some "pending", new_status := some "processed" }

/-- Status-change frame carrying the wire tag the client actually routes on
(`transaction.status_changed`), addressed to the given id. -/
def statusFrameFor (X : String) : WSMessage :=
  { event := "transaction.status_changed", transaction_id := some X,
    old_status := some "pending", new_status := some "processed" }

/-- Status-change frame addressed to an id (`Z`) absent from the store. -/
def frameUnknownDemo : WSMessage :=
  { event := "transaction.status_changed", transaction_id := some "Z",
    old_status := some "pendiente", new_status := some "procesado" }

/-- First event of the concrete reconciliation sequence for X. -/
def evDemo1 : WSMessage :=
  { event := "transaction.status_changed", transaction_id := some "X",
    old_status := some "pendiente", new_status := some "procesado" }

/-- Second event of the concrete reconciliation sequence for X. -/
def evDemo2 : WSMessage :=
  { event := "transaction.status_changed", transaction_id := some "X",
    old_status := some "procesado", new_status := some "fallido" }

/-- Status-change frame without timestamp, used for the frame-condition
evaluation. -/
def frameNoTs : WSMessage :=
  { event := "transaction.status_changed", transaction_id := some "X",
    new_status := some "procesado" }

/-- Domain frame produced by the demo parser. -/
def statusFrameDemo : WSMessage :=
  { event := "transaction.status_changed", transaction_id := some "X",
    new_status := some "procesado" }

/-- Concrete stand-in for `JSON.parse` mapping two known raw frames to
decoded messages and failing on everything else. -/
def parseDemo : String → Option WSMessage :=
  fun raw =>
    if raw == "status-frame" then some statusFrameDemo
    else if raw == "keepalive-frame" then some { event := "keepalive", type := some "keepalive" }
    else none

/-- Subscriber counting its deliveries, used in concrete evaluations of the
frame classifier. -/
def tallySub : WSMessage → Nat → Nat :=
  fun _ n => n + 1

/-- Initial WebSocket client state used in concrete evaluations. -/
def wsDemoState : WSClientState Nat :=
  { lastMessage := none, subscriberState := 0, delivered := [],
    warnings := [], connectionOpen := true }

/-!
Helper lemmas about the store handler.
-/

theorem jsOrElse_idem (a : Option String) (b : String) :
    jsOrElse a (jsOrElse a b) = jsOrElse a b := by
  cases a with
  | none => rfl
  | some s =>
      by_cases h : s != ""
      · simp [jsOrElse, h]
      · simp [jsOrElse, h]

theorem updateTx_id (m : WSMessage) (tx : Transaction) :
    (updateTx m tx).id = tx.id := by
  unfold updateTx
  cases m.new_status with
  | none => rfl
  | some ns =>
      dsimp only
      split
      · rfl
      · rfl

theorem updateTx_idem (m : WSMessage) (tx : Transaction) :
    updateTx m (updateTx m tx) = updateTx m tx := by
  cases hns : m.new_status with
  | none => simp [updateTx, hns]
  | some ns =>
      by_cases hg : (optStrEq m.transaction_id tx.id && ns != "") = true
      · simp [updateTx, hns, hg, jsOrElse_idem]
      · simp [updateTx, hns, hg]

theorem handleWSMessage_length (m : WSMessage) (txs : List Transaction) :
    (handleWSMessage m txs).length = txs.length := by
  unfold handleWSMessage
  split
  · simp
  · rfl

/-- C4: applying the same `status_changed` event twice through the store
handler yields the same final store state as applying it once, for every
starting store state and every event (reconciliation idempotence). -/
theorem handleWSMessage_idempotent (m : WSMessage) (txs : List Transaction) :
    handleWSMessage m (handleWSMessage m txs) = handleWSMessage m txs := by
  unfold handleWSMessage
  by_cases hg : (m.event == "transaction.status_changed" && jsTruthy m.transaction_id) = true
  · simp only [hg, if_pos, List.map_map]
    exact List.map_congr_left (fun tx _ => updateTx_idem m tx)
  · simp [hg]

/-- C9: on a successful creation response the store prepends the returned
transaction: the new record is first, the length grows by one, and every
previously held record keeps its prior position (hence its relative order). -/
theorem createStore_prepends (tx : Transaction) (prev : List Transaction) :
    (createStore tx prev).length = prev.length + 1 ∧
    (createStore tx prev).head? = some tx ∧
    ∀ i : Nat, (createStore tx prev).get? (i + 1) = prev.get? i := by
  exact ⟨rfl, rfl, fun i => rfl⟩

/-- C8: for every request through the API client, a non-success response
throws an error whose message is the response body when non-empty and the
fallback "HTTP " followed by the status code otherwise; a successful
response throws no error and resolves with the payload. -/
theorem request_error_surface (resp : HttpResponse) :
    (resp.ok = false →
      request resp =
        Except.error (if resp.body != "" then resp.body
                      else "HTTP " ++ toString resp.status)) ∧
    (resp.ok = true → request resp = Except.ok resp.body) := by
  constructor
  · intro h
    simp [request, h]
  · intro h
    simp [request, h]

/-- Witness for C8 at concrete responses: an empty-body 404 yields the HTTP
fallback, a 500 with body "boom" yields "boom", and a 200 throws nothing. -/
theorem request_error_surface_witness :
    request { ok := false, status := 404, body := "" } = Except.error ("HTTP " ++ toString 404) ∧
    request { ok := false, status := 500, body := "boom" } = Except.error "boom" ∧
    request { ok := true, status := 200, body := "payload" } = Except.ok "payload" := by
  refine ⟨?_, ?_, ?_⟩
  · have h := (request_error_surface { ok := false, status := 404, body := "" }).1 rfl
    simpa using h
  · have h := (request_error_surface { ok := false, status := 500, body := "boom" }).1 rfl
    simpa using h
  · exact (request_error_surface { ok := true, status := 200, body := "payload" }).2 rfl

/-- C1 (divergence evaluation): `createTransaction` executes
`crypto.randomUUID()` on every invocation, so two invocations for the same
logical create intent (a retry with the same payload) carry two different
Idempotency-Key header values, not one shared key. -/
theorem createTransaction_mints_fresh_key_each_retry :
    (createTransaction dRetry { counter := 0 }).1.idempotencyKey = some "uuid-0" ∧
    (createTransaction dRetry (createTransaction dRetry { counter := 0 }).2).1.idempotencyKey
      = some "uuid-1" ∧
    (createTransaction dRetry { counter := 0 }).1.idempotencyKey ≠
      (createTransaction dRetry (createTransaction dRetry { counter := 0 }).2).1.idempotencyKey := by
  refine ⟨rfl, rfl, by decide⟩

/-- C6 (divergence evaluation): the combined handler `onWSMessage` calls the
store subscriber and then the toast subscriber sequentially with no
per-subscriber isolation, so when the first subscriber throws, the second is
never invoked (its delivery count stays 0), although a direct delivery to it
would have counted 1. -/
theorem dispatchCombined_first_throw_skips_second :
    dispatchCombined throwingSub countingSub { event := "transaction.status_changed" } 0
      = (0, true) ∧
    (countingSub { event := "transaction.status_changed" } 0).1 = 1 := by
  exact ⟨rfl, rfl⟩

/-- C5: a `status_changed` event whose transaction id matches no transaction
in the store leaves the store completely unchanged — no record is created
and, the handler being a total function, no error is raised. -/
theorem handleWSMessage_unknown_id_unchanged (m : WSMessage) (txs : List Transaction)
    (h : ∀ tx ∈ txs, m.transaction_id ≠ some tx.id) :
    handleWSMessage m txs = txs := by
  unfold handleWSMessage
  split
  · have hpt : ∀ tx ∈ txs, updateTx m tx = tx := by
      intro tx htx
      have hne : optStrEq m.transaction_id tx.id = false := by
        cases hmt : m.transaction_id with
        | none => rfl
        | some s =>
            have hs : s ≠ tx.id := by
              intro he
              exact h tx htx (by rw [hmt, he])
            simp [optStrEq, hs]
      cases hns : m.new_status with
      | none => simp [updateTx, hns]
      | some ns => simp [updateTx, hns, hne]
    calc txs.map (updateTx m) = txs.map id := List.map_congr_left (fun tx htx => hpt tx htx)
      _ = txs := List.map_id txs
  · rfl

/-- Witness for C5: a frame addressed to the unknown id `Z` leaves the
one-element store holding only X untouched. -/
theorem handleWSMessage_unknown_id_unchanged_witness :
    handleWSMessage frameUnknownDemo [txX] = [txX] :=
  handleWSMessage_unknown_id_unchanged frameUnknownDemo [txX] (by decide)

/-- C2 (counterexample): the spec scenario frame carries the bare tag
`status_changed`, but the store handler routes only on the wire tag
`transaction.status_changed`; delivered as literally written, the frame
leaves the store unchanged and X still reports its old status, not
`processed`. -/
theorem frameBareTag_not_applied :
    handleWSMessage frameBareTag [txX] = [txX] ∧
    txX.status = "pending" ∧ txX.status ≠ "processed" := by
  refine ⟨?_, rfl, by decide⟩
  decide

/-- C2 (amended): if the store holds a transaction X (nonempty id, status
pending) and a push frame with the wire tag `transaction.status_changed`,
transaction_id X, old_status pending, new_status processed is routed to the
store handler, then afterwards the store reports X with status processed
(every record with id X has status processed, and such a record exists). -/
theorem statusChanged_wire_tag_sets_processed (txs : List Transaction) (X : String)
    (hX : X ≠ "")
    (hmem : ∃ tx ∈ txs, tx.id = X ∧ tx.status = "pending") :
    (∃ tx2 ∈ handleWSMessage (statusFrameFor X) txs, tx2.id = X) ∧
    ∀ tx2 ∈ handleWSMessage (statusFrameFor X) txs, tx2.id = X → tx2.status = "processed" := by
  have hroute : handleWSMessage (statusFrameFor X) txs = txs.map (updateTx (statusFrameFor X)) := by
    unfold handleWSMessage
    rw [if_pos]
    simp [statusFrameFor, jsTruthy, hX]
  constructor
  · obtain ⟨tx, htx, hid, _⟩ := hmem
    refine ⟨updateTx (statusFrameFor X) tx, ?_, ?_⟩
    · rw [hroute]
      exact List.mem_map_of_mem (updateTx (statusFrameFor X)) htx
    · rw [updateTx_id]
      exact hid
  · intro tx2 htx2 hid2
    rw [hroute] at htx2
    obtain ⟨tx, htx, rfl⟩ := List.mem_map.mp htx2
    have hid : tx.id = X := by rw [← updateTx_id (statusFrameFor X) tx]; exact hid2
    unfold updateTx
    simp only [statusFrameFor]
    rw [if_pos]
    simp [optStrEq, hid]

/-- Witness for the amended C2 at the concrete store `[txX]`. -/
theorem statusChanged_wire_tag_sets_processed_witness :
    (∃ tx2 ∈ handleWSMessage (statusFrameFor "X") [txX], tx2.id = "X") ∧
    ∀ tx2 ∈ handleWSMessage (statusFrameFor "X") [txX], tx2.id = "X" → tx2.status = "processed" :=
  statusChanged_wire_tag_sets_processed [txX] "X" (by decide)
    ⟨txX, by simp, rfl, rfl⟩

theorem isStatusChangedFor_spec (id : String) (m : WSMessage)
    (h : isStatusChangedFor id m = true) :
    m.event = "transaction.status_changed" ∧ m.transaction_id = some id ∧
    ∃ ns, m.new_status = some ns ∧ ns ≠ "" := by
  unfold isStatusChangedFor at h
  cases hns : m.new_status with
  | none => rw [hns] at h; simp at h
  | some ns =>
      rw [hns] at h
      simp only [Bool.and_eq_true, beq_iff_eq, bne_iff_ne] at h
      exact ⟨h.1.1, h.1.2, ns, rfl, h.2⟩

theorem handleWSMessage_routes (id : String) (m : WSMessage) (hid : id ≠ "")
    (hm : isStatusChangedFor id m = true) (txs : List Transaction) :
    handleWSMessage m txs = txs.map (updateTx m) := by
  obtain ⟨he, ht, _⟩ := isStatusChangedFor_spec id m hm
  unfold handleWSMessage
  rw [if_pos]
  simp [he, ht, jsTruthy, hid]

theorem updateTx_status_of_match (id : String) (m : WSMessage) (tx : Transaction)
    (hm : isStatusChangedFor id m = true) (hid : tx.id = id) :
    ∃ ns, m.new_status = some ns ∧ (updateTx m tx).status = ns := by
  obtain ⟨he, ht, ns, hns, hne⟩ := isStatusChangedFor_spec id m hm
  refine ⟨ns, hns, ?_⟩
  unfold updateTx
  rw [hns]
  dsimp only
  rw [if_pos]
  simp [optStrEq, ht, hid, hne]

theorem lastNewStatus_singleton (m : WSMessage) (ns : String) (h : m.new_status = some ns) :
    lastNewStatus [m] = ns := by
  simp [lastNewStatus, h]

theorem lastNewStatus_cons_cons (m b : WSMessage) (l : List WSMessage) :
    lastNewStatus (m :: b :: l) = lastNewStatus (b :: l) := by
  simp [lastNewStatus, List.getLast?_cons_cons]

/-- C3: for every transaction present in the store (at any position) and
every nonempty sequence of `status_changed` events addressed to its id,
applied in receipt order through the store handler, the stored status at
that position afterwards equals the `new_status` of the last event of the
sequence (last-applied-wins; the handler performs no timestamp or sequence
comparison). -/
theorem stored_status_eq_last_new_status (id : String) (hid : id ≠ "") :
    ∀ (evts : List WSMessage), evts ≠ [] →
      (∀ m ∈ evts, isStatusChangedFor id m = true) →
      ∀ (txs : List Transaction) (i : Nat) (tx : Transaction),
        txs[i]? = some tx → tx.id = id →
        ((applyEvents evts txs)[i]?).map Transaction.status = some (lastNewStatus evts) := by
  intro evts
  induction evts with
  | nil => intro hne _; exact absurd rfl hne
  | cons m rest ih =>
      intro _ hall txs i tx hget htxid
      have hm := hall m (List.mem_cons_self m rest)
      have hstep : (handleWSMessage m txs)[i]? = some (updateTx m tx) := by
        rw [handleWSMessage_routes id m hid hm txs, List.getElem?_map, hget]
        rfl
      cases rest with
      | nil =>
          obtain ⟨ns, hns, hst⟩ := updateTx_status_of_match id m tx hm htxid
          have happ : applyEvents [m] txs = handleWSMessage m txs := rfl
          rw [happ, hstep]
          simp [hst, lastNewStatus_singleton m ns hns]
      | cons b l =>
          have happ : applyEvents (m :: b :: l) txs
              = applyEvents (b :: l) (handleWSMessage m txs) := rfl
          rw [happ, lastNewStatus_cons_cons]
          exact ih (by simp) (fun m2 hm2 => hall m2 (List.mem_cons_of_mem m hm2))
            (handleWSMessage m txs) i (updateTx m tx) hstep
            (by rw [updateTx_id]; exact htxid)

/-- Witness for C3: applying the two-event sequence (to `procesado`, then to
`fallido`) to the store holding X leaves X with the last new status. -/
theorem stored_status_eq_last_new_status_witness :
    ((applyEvents [evDemo1, evDemo2] [txX])[0]?).map Transaction.status = some "fallido" := by
  have H := stored_status_eq_last_new_status "X" (by decide) [evDemo1, evDemo2]
    (by decide) (by decide) [txX] 0 txX rfl rfl
  have hl : lastNewStatus [evDemo1, evDemo2] = "fallido" := by decide
  rw [hl] at H
  exact H

theorem updateTx_preserves_fields (m : WSMessage) (tx : Transaction) :
    (updateTx m tx).id = tx.id ∧ (updateTx m tx).user_id = tx.user_id ∧
    (updateTx m tx).monto = tx.monto ∧ (updateTx m tx).tipo = tx.tipo ∧
    (updateTx m tx).created_at = tx.created_at := by
  unfold updateTx
  cases m.new_status with
  | none => exact ⟨rfl, rfl, rfl, rfl, rfl⟩
  | some ns =>
      dsimp only
      split
      · exact ⟨rfl, rfl, rfl, rfl, rfl⟩
      · exact ⟨rfl, rfl, rfl, rfl, rfl⟩

theorem updateTx_nonmatching (m : WSMessage) (t : String) (tx : Transaction)
    (ht : m.transaction_id = some t) (hne : tx.id ≠ t) :
    updateTx m tx = tx := by
  cases hns : m.new_status with
  | none => simp [updateTx, hns]
  | some ns =>
      have hfalse : optStrEq m.transaction_id tx.id = false := by
        rw [ht]
        simp [optStrEq]
        exact Ne.symm hne
      simp [updateTx, hns, hfalse]

theorem updateTx_status_none (m : WSMessage) (tx : Transaction)
    (h : m.new_status = none) : updateTx m tx = tx := by
  simp [updateTx, h]

theorem updateTx_updated_at_ts_none (m : WSMessage) (tx : Transaction)
    (h : m.timestamp = none) : (updateTx m tx).updated_at = tx.updated_at := by
  cases hns : m.new_status with
  | none => simp [updateTx, hns]
  | some ns =>
      by_cases hg : (optStrEq m.transaction_id tx.id && ns != "") = true
      · simp [updateTx, hns, hg, jsOrElse, h]
      · simp [updateTx, hns, hg]

theorem updateTx_status_set (m : WSMessage) (t : String) (tx : Transaction)
    (ht : m.transaction_id = some t) (ns : String) (hns : m.new_status = some ns)
    (hnse : ns ≠ "") (hid : tx.id = t) : (updateTx m tx).status = ns := by
  unfold updateTx
  rw [hns]
  dsimp only
  rw [if_pos]
  simp [optStrEq, ht, hid, hnse]

/-- C10: when the store handler applies a status-change event (wire tag,
truthy transaction id `t`), the length and positional order of the
collection are preserved; at every position the record keeps its `id`,
`user_id`, `monto`, `tipo` and `created_at`; a record whose id differs from
`t` is wholly unchanged; the status is replaced only when the event carries
a `new_status` (and is then set to it on the matching records); and
`updated_at` keeps its prior value when the event carries no timestamp. -/
theorem handleWSMessage_frame_conditions (m : WSMessage) (txs : List Transaction)
    (t : String) (he : m.event = "transaction.status_changed")
    (ht : m.transaction_id = some t) (htne : t ≠ "") :
    (handleWSMessage m txs).length = txs.length ∧
    ∀ (i : Nat) (tx : Transaction), txs[i]? = some tx →
      ∃ tx2, (handleWSMessage m txs)[i]? = some tx2 ∧
        tx2.id = tx.id ∧ tx2.user_id = tx.user_id ∧ tx2.monto = tx.monto ∧
        tx2.tipo = tx.tipo ∧ tx2.created_at = tx.created_at ∧
        (tx.id ≠ t → tx2 = tx) ∧
        (m.new_status = none → tx2.status = tx.status) ∧
        (m.timestamp = none → tx2.updated_at = tx.updated_at) ∧
        (∀ ns, m.new_status = some ns → ns ≠ "" → tx.id = t → tx2.status = ns) := by
  have hroute : handleWSMessage m txs = txs.map (updateTx m) := by
    unfold handleWSMessage
    rw [if_pos]
    simp [he, ht, jsTruthy, htne]
  constructor
  · rw [hroute]
    simp
  · intro i tx hget
    refine ⟨updateTx m tx, ?_, ?_⟩
    · rw [hroute, List.getElem?_map, hget]
      rfl
    obtain ⟨h1, h2, h3, h4, h5⟩ := updateTx_preserves_fields m tx
    refine ⟨h1, h2, h3, h4, h5, ?_, ?_, ?_, ?_⟩
    · intro hne
      exact updateTx_nonmatching m t tx ht hne
    · intro hn
      rw [updateTx_status_none m tx hn]
    · intro hts
      exact updateTx_updated_at_ts_none m tx hts
    · intro ns hns hnse hid
      exact updateTx_status_set m t tx ht ns hns hnse hid

/-- Witness for C10: the no-timestamp status frame for X applied to
`[txX, txY]` keeps the length and Y untouched, sets X to `procesado`, and
leaves both `created_at` and `updated_at` of X at their prior values. -/
theorem handleWSMessage_frame_conditions_witness :
    (handleWSMessage frameNoTs [txX, txY]).length = 2 ∧
    (handleWSMessage frameNoTs [txX, txY])[1]? = some txY ∧
    ((handleWSMessage frameNoTs [txX, txY])[0]?).map Transaction.status = some "procesado" ∧
    ((handleWSMessage frameNoTs [txX, txY])[0]?).map Transaction.updated_at = some txX.updated_at ∧
    ((handleWSMessage frameNoTs [txX, txY])[0]?).map Transaction.created_at = some txX.created_at := by
  have H := handleWSMessage_frame_conditions frameNoTs [txX, txY] "X" rfl rfl (by decide)
  obtain ⟨hlen, hrest⟩ := H
  obtain ⟨tx2, hg2, hid2, hu2, hm2, hp2, hca, hother, hsn, hts, hset⟩ := hrest 0 txX rfl
  obtain ⟨ty2, hgy, y1, y2, y3, y4, y5, hoy, y6, y7, y8⟩ := hrest 1 txY rfl
  refine ⟨by simpa using hlen, ?_, ?_, ?_, ?_⟩
  · rw [hgy, hoy (by decide)]
  · rw [hg2]
    simp [hset "procesado" rfl (by decide) rfl]
  · rw [hg2]
    simp [hts rfl]
  · rw [hg2]
    simp [hca]

/-- C7: classification of inbound frames by `ws.onmessage` — (1) the literal
liveness acknowledgement `pong` is absorbed silently with no state change
and no subscriber invocation; (2) a frame decoding to a JSON message tagged
`keepalive` is dropped before reaching any subscriber; (3) a frame that
fails to decode is dropped with a diagnostic warning, the connection stays
open and no subscriber sees it; (4) any other frame is delivered to the
subscriber (recorded in `delivered` and applied to the subscriber state). -/
theorem wsOnMessage_classification {σ : Type} (parse : String → Option WSMessage)
    (subscriber : WSMessage → σ → σ) (st : WSClientState σ) :
    (wsOnMessage parse subscriber "pong" st = st) ∧
    (∀ raw m, raw ≠ "pong" → parse raw = some m → m.type = some "keepalive" →
      wsOnMessage parse subscriber raw st = st) ∧
    (∀ raw, raw ≠ "pong" → parse raw = none →
      (wsOnMessage parse subscriber raw st).warnings
          = st.warnings ++ ["[WS] Failed to parse message: " ++ raw] ∧
      (wsOnMessage parse subscriber raw st).connectionOpen = st.connectionOpen ∧
      (wsOnMessage parse subscriber raw st).delivered = st.delivered ∧
      (wsOnMessage parse subscriber raw st).subscriberState = st.subscriberState ∧
      (wsOnMessage parse subscriber raw st).lastMessage = st.lastMessage) ∧
    (∀ raw m, raw ≠ "pong" → parse raw = some m → m.type ≠ some "keepalive" →
      (wsOnMessage parse subscriber raw st).delivered = st.delivered ++ [m] ∧
      (wsOnMessage parse subscriber raw st).subscriberState
          = subscriber m st.subscriberState ∧
      (wsOnMessage parse subscriber raw st).lastMessage = some m ∧
      (wsOnMessage parse subscriber raw st).connectionOpen = st.connectionOpen) := by
  refine ⟨?_, ?_, ?_, ?_⟩
  · simp [wsOnMessage]
  · intro raw m hraw hparse htag
    simp [wsOnMessage, hraw, hparse, htag]
  · intro raw hraw hparse
    simp [wsOnMessage, hraw, hparse]
  · intro raw m hraw hparse htag
    simp [wsOnMessage, hraw, hparse, htag]

/-- Witness for C7 at concrete frames: `pong` and the keepalive-tagged frame
leave the demo state intact, a garbage frame only appends the diagnostic,
and the status frame is delivered (the tally subscriber ran once). -/
theorem wsOnMessage_classification_witness :
    wsOnMessage parseDemo tallySub "pong" wsDemoState = wsDemoState ∧
    wsOnMessage parseDemo tallySub "keepalive-frame" wsDemoState = wsDemoState ∧
    (wsOnMessage parseDemo tallySub "garbage" wsDemoState).warnings
        = ["[WS] Failed to parse message: garbage"] ∧
    (wsOnMessage parseDemo tallySub "garbage" wsDemoState).connectionOpen = true ∧
    (wsOnMessage parseDemo tallySub "garbage" wsDemoState).delivered = [] ∧
    (wsOnMessage parseDemo tallySub "status-frame" wsDemoState).delivered = [statusFrameDemo] ∧
    (wsOnMessage parseDemo tallySub "status-frame" wsDemoState).subscriberState = 1 := by
  have H := wsOnMessage_classification parseDemo tallySub wsDemoState
  obtain ⟨h1, h2, h3, h4⟩ := H
  have hgarbage := h3 "garbage" (by decide) rfl
  have hdeliver := h4 "status-frame" statusFrameDemo (by decide) rfl (by decide)
  refine ⟨h1, h2 "keepalive-frame" _ (by decide) rfl rfl, ?_, ?_, ?_, ?_, ?_⟩
  · rw [hgarbage.1]
    rfl
  · rw [hgarbage.2.1]
    rfl
  · rw [hgarbage.2.2.1]
    rfl
  · rw [hdeliver.1]
    rfl
  · rw [hdeliver.2.1]
    rfl
